import Mathlib

/-!
Verification development for the Office-Flow attendance subsystem
(`attendance/models.py`, `accounts/models.py`).

Shallow embedding conventions:
* a clock time (`datetime.time`) is the number of seconds since midnight
  (`Time := Nat`); comparison of Python `time` objects coincides with the
  numeric order of seconds-since-midnight;
* a date (`datetime.date`) is the number of days since a fixed epoch chosen
  to be a Monday (`Date := Nat`), so Python's `date.weekday()`
  (Monday = 0, ..., Sunday = 6) is `d % 7`;
* `Decimal` / float hour values are rationals (`ℚ`); Python's `round(x, 2)`
  (round-half-to-even) is `pyRound2`;
* Django model instances are Lean structures; `obj.save()` overrides are
  functions from the old record (plus the read-only environment: active
  settings rows and the holiday table) to the new record;
* `raise ValidationError(msg)` is modelled as `Except.error msg`: the Python
  methods raise before assigning any field, so an error result leaves every
  record exactly as it was.
-/

/-- Seconds since midnight, standing for a `datetime.time` value. -/
abbrev Time := Nat

/-- Days since an epoch that falls on a Monday, standing for a `datetime.date`. -/
abbrev Date := Nat

/-- Python's `date.weekday()`: Monday = 0, ..., Saturday = 5, Sunday = 6. -/
def weekday (d : Date) : Nat := d % 7

/-- The `employee_status` choices of `accounts.CustomUser`. -/
inductive EmployeeStatus
  | ACTIVE
  | ON_LEAVE
  | SUSPENDED
  | TERMINATED
  | RESIGNED
deriving DecidableEq

/-- The `approval_level` choices of `accounts.CustomUser`. -/
inductive ApprovalLevel
  | STAFF
  | SUPERVISOR
  | DEPT_HEAD
  | DEPUTY_DIR
  | DIRECTOR
  | HR_ADMIN
  | IT_ADMIN
deriving DecidableEq

/-- The `STATUS_CHOICES` of `attendance.Attendance.employeeDayStatus`. -/
inductive DayStatus
  | PRESENT
  | ABSENT
  | ON_LEAVE
  | WEEKEND
  | HOLIDAY
  | SUSPENDED
deriving DecidableEq

/-- The `STATUS_CHOICES` of `attendance.AttendanceApprovalRequest.status`. -/
inductive ReqStatus
  | PENDING
  | SUPERVISOR_APPROVED
  | HR_APPROVED
  | REJECTED
deriving DecidableEq

/-- An `accounts.Unit` row, reduced to the field the attendance core reads:
its (optional) supervisor, referenced by user id. -/
structure OrgUnit where
  supervisor : Option Nat
deriving DecidableEq

/-- An `accounts.CustomUser` row, reduced to the fields the attendance core
reads: primary key, `employee_status`, `unit`, `approval_level`. -/
structure CustomUser where
  id : Nat
  employee_status : EmployeeStatus
  unit : Option OrgUnit
  approval_level : ApprovalLevel
deriving DecidableEq

/-- An `attendance.Holiday` row (fields used by `Attendance.save`). -/
structure Holiday where
  name : String
  date : Date
  is_active : Bool
deriving DecidableEq

/-- An `attendance.AttendanceSettings` row. -/
structure AttendanceSettings where
  work_start_time : Time
  work_end_time : Time
  clock_out_deadline : Time
  standard_work_hours : ℚ
  auto_mark_absent_after_deadline : Bool
  require_clock_out : Bool
  is_active : Bool
deriving DecidableEq

/-- Source classmethod `AttendanceSettings.get_active_settings`: first settings row with
`is_active = True`, or `None`. -/
def AttendanceSettings.get_active_settings (rows : List AttendanceSettings) :
    Option AttendanceSettings :=
  rows.find? (fun s => s.is_active)

/-- The read-only persistent state consulted by `Attendance.save`: the
settings table and the holiday table. -/
structure Env where
  settingsList : List AttendanceSettings
  holidays : List Holiday
deriving DecidableEq

/-- An `attendance.Attendance` row (fields touched by the core logic;
auto-managed timestamps omitted). -/
structure Attendance where
  employee : CustomUser
  date : Date
  clock_in_time : Option Time
  clock_out_time : Option Time
  employeeDayStatus : DayStatus
  hours_worked : Option ℚ
  has_pending_approval_request : Bool
deriving DecidableEq

/-- Python's `round` to the nearest integer with ties to even (the rounding
used by `round(x, n)` on floats). -/
def roundHalfEven (q : ℚ) : ℤ :=
  let f : ℤ := ⌊q⌋
  let frac : ℚ := q - (f : ℚ)
  if frac < 1/2 then f
  else if 1/2 < frac then f + 1
  else if f % 2 = 0 then f else f + 1

/-- Python's `round(x, 2)`. -/
def pyRound2 (q : ℚ) : ℚ := ((roundHalfEven (q * 100) : ℤ) : ℚ) / 100

/-- Hardcoded fallback `datetime.time(9, 0)` used when no settings row is
active. -/
def defaultWorkStart : Time := 9 * 3600

/-- Hardcoded fallback `datetime.time(18, 1)` used when no settings row is
active. -/
def defaultClockOutDeadline : Time := 18 * 3600 + 60

/-- Source method `Attendance.save`: recompute `employeeDayStatus` by the priority cascade
(employee SUSPENDED, employee ON_LEAVE, weekend, active holiday, clock-in
versus the active work-start deadline) and recompute `hours_worked` when both
clock times are present; every other field is persisted unchanged. The inner
two-way `PRESENT` branch mirrors the source's redundant
clock-out check (both arms assign `PRESENT`). When both clock times exist,
`hours_worked` is set to the difference of `datetime.combine(date, t)`
values in seconds, divided by 3600 and rounded to two decimals; otherwise the
source has no else-branch, so the previously stored value is kept. -/
def Attendance.save (env : Env) (a : Attendance) : Attendance :=
  let work_start : Time :=
    match AttendanceSettings.get_active_settings env.settingsList with
    | none => defaultWorkStart
    | some s => s.work_start_time
  let status : DayStatus :=
    if a.employee.employee_status = EmployeeStatus.SUSPENDED then
      DayStatus.SUSPENDED
    else if a.employee.employee_status = EmployeeStatus.ON_LEAVE then
      DayStatus.ON_LEAVE
    else if weekday a.date ∈ ([5, 6] : List Nat) then
      DayStatus.WEEKEND
    else if env.holidays.any (fun h => h.date == a.date && h.is_active) then
      DayStatus.HOLIDAY
    else
      match a.clock_in_time with
      | some ci =>
        if ci ≤ work_start then
          match a.clock_out_time with
          | some _ => DayStatus.PRESENT
          | none => DayStatus.PRESENT
        else
          DayStatus.ABSENT
      | none => DayStatus.ABSENT
  let hours : Option ℚ :=
    match a.clock_in_time, a.clock_out_time with
    | some ci, some co => some (pyRound2 (((co : ℚ) - (ci : ℚ)) / 3600))
    | _, _ => a.hours_worked
  { a with employeeDayStatus := status, hours_worked := hours }

/-- Source method `Attendance.clean`: clock-out must be strictly after clock-in when both
are given. -/
def Attendance.clean (a : Attendance) : Except String Unit :=
  match a.clock_in_time, a.clock_out_time with
  | some ci, some co =>
    if co ≤ ci then Except.error "Clock-out time must be after clock-in time"
    else Except.ok ()
  | _, _ => Except.ok ()

/-- Source method `Attendance.can_request_approval`: status is ABSENT and no pending
request exists. -/
def Attendance.can_request_approval (a : Attendance) : Bool :=
  a.employeeDayStatus == DayStatus.ABSENT && !a.has_pending_approval_request

/-- The work-start deadline governing an environment: the active settings
row's `work_start_time`, or the hardcoded 09:00 fallback when none is
active. -/
def workStartOf (env : Env) : Time :=
  match AttendanceSettings.get_active_settings env.settingsList with
  | none => defaultWorkStart
  | some s => s.work_start_time

/-- The spec's status cascade, stated on the engine's inputs (employee
status, date, clock-in time) for comparison with `Attendance.save`. -/
def deriveStatus (env : Env) (es : EmployeeStatus) (d : Date)
    (ci : Option Time) : DayStatus :=
  let work_start : Time := workStartOf env
  if es = EmployeeStatus.SUSPENDED then DayStatus.SUSPENDED
  else if es = EmployeeStatus.ON_LEAVE then DayStatus.ON_LEAVE
  else if weekday d ∈ ([5, 6] : List Nat) then DayStatus.WEEKEND
  else if env.holidays.any (fun h => h.date == d && h.is_active) then
    DayStatus.HOLIDAY
  else
    match ci with
    | some t => if t ≤ work_start then DayStatus.PRESENT else DayStatus.ABSENT
    | none => DayStatus.ABSENT

/-- An `attendance.AttendanceApprovalRequest` row (auto-managed timestamps
omitted; review timestamps kept as abstract instants). -/
structure AttendanceApprovalRequest where
  attendance : Attendance
  employee : CustomUser
  reason : String
  supporting_documents : Option String
  status : ReqStatus
  supervisor_reviewed_by : Option Nat
  supervisor_review_notes : Option String
  supervisor_reviewed_at : Option Nat
  hr_reviewed_by : Option Nat
  hr_review_notes : Option String
  hr_reviewed_at : Option Nat
deriving DecidableEq

/-- Source method `AttendanceApprovalRequest.supervisor_approve(supervisor, notes=None)`:
requires status PENDING, moves to SUPERVISOR_APPROVED and records the
reviewer, notes and instant. It does not touch the attendance record. -/
def AttendanceApprovalRequest.supervisor_approve (now : Nat)
    (r : AttendanceApprovalRequest) (supervisor : CustomUser)
    (notes : Option String) : Except String AttendanceApprovalRequest :=
  if r.status ≠ ReqStatus.PENDING then
    Except.error "Can only approve pending requests"
  else
    Except.ok { r with
      status := ReqStatus.SUPERVISOR_APPROVED
      supervisor_reviewed_by := some supervisor.id
      supervisor_review_notes := notes
      supervisor_reviewed_at := some now }

/-- Source method `AttendanceApprovalRequest.supervisor_reject(supervisor, notes)`:
requires status PENDING, moves to REJECTED, records the review, then clears
`has_pending_approval_request` on the attendance record and saves it. -/
def AttendanceApprovalRequest.supervisor_reject (env : Env) (now : Nat)
    (r : AttendanceApprovalRequest) (supervisor : CustomUser)
    (notes : String) : Except String AttendanceApprovalRequest :=
  if r.status ≠ ReqStatus.PENDING then
    Except.error "Can only reject pending requests"
  else
    let r1 := { r with
      status := ReqStatus.REJECTED
      supervisor_reviewed_by := some supervisor.id
      supervisor_review_notes := some notes
      supervisor_reviewed_at := some now }
    let att := { r1.attendance with has_pending_approval_request := false }
    Except.ok { r1 with attendance := Attendance.save env att }

/-- Source method `AttendanceApprovalRequest.hr_approve(hr_user, notes=None)`: requires
status SUPERVISOR_APPROVED, moves to HR_APPROVED, records the review, then
assigns `employeeDayStatus = PRESENT`, clears
`has_pending_approval_request`, and calls `attendance.save()` — which
recomputes the status cascade over the assignment. -/
def AttendanceApprovalRequest.hr_approve (env : Env) (now : Nat)
    (r : AttendanceApprovalRequest) (hr_user : CustomUser)
    (notes : Option String) : Except String AttendanceApprovalRequest :=
  if r.status ≠ ReqStatus.SUPERVISOR_APPROVED then
    Except.error "Can only approve supervisor-approved requests"
  else
    let r1 := { r with
      status := ReqStatus.HR_APPROVED
      hr_reviewed_by := some hr_user.id
      hr_review_notes := notes
      hr_reviewed_at := some now }
    let att := { r1.attendance with
      employeeDayStatus := DayStatus.PRESENT
      has_pending_approval_request := false }
    Except.ok { r1 with attendance := Attendance.save env att }

/-- Source method `AttendanceApprovalRequest.hr_reject(hr_user, notes)`: requires status
SUPERVISOR_APPROVED, moves to REJECTED, records the review, then clears
`has_pending_approval_request` on the attendance record and saves it. -/
def AttendanceApprovalRequest.hr_reject (env : Env) (now : Nat)
    (r : AttendanceApprovalRequest) (hr_user : CustomUser)
    (notes : String) : Except String AttendanceApprovalRequest :=
  if r.status ≠ ReqStatus.SUPERVISOR_APPROVED then
    Except.error "Can only reject supervisor-approved requests"
  else
    let r1 := { r with
      status := ReqStatus.REJECTED
      hr_reviewed_by := some hr_user.id
      hr_review_notes := some notes
      hr_reviewed_at := some now }
    let att := { r1.attendance with has_pending_approval_request := false }
    Except.ok { r1 with attendance := Attendance.save env att }

/-- Source method `AttendanceApprovalRequest.get_supervisor`: the employee's unit
supervisor, if the unit and its supervisor both exist. -/
def AttendanceApprovalRequest.get_supervisor
    (r : AttendanceApprovalRequest) : Option Nat :=
  match r.employee.unit with
  | some u =>
    match u.supervisor with
    | some s => some s
    | none => none
  | none => none

/-- Source method `AttendanceApprovalRequest.can_user_review_as_supervisor(user)`: the
user is the employee's unit supervisor. -/
def AttendanceApprovalRequest.can_user_review_as_supervisor
    (r : AttendanceApprovalRequest) (user : CustomUser) : Bool :=
  match r.get_supervisor with
  | some s => s == user.id
  | none => false

/-- Source method `AttendanceApprovalRequest.can_user_review_as_hr(user)`: the user's
approval level is HR_ADMIN. -/
def AttendanceApprovalRequest.can_user_review_as_hr
    (r : AttendanceApprovalRequest) (user : CustomUser) : Bool :=
  user.approval_level == ApprovalLevel.HR_ADMIN

/-- Source method `AttendanceApprovalRequest.can_supervisor_review`. -/
def AttendanceApprovalRequest.can_supervisor_review
    (r : AttendanceApprovalRequest) : Bool :=
  r.status == ReqStatus.PENDING

/-- Source method `AttendanceApprovalRequest.can_hr_review`. -/
def AttendanceApprovalRequest.can_hr_review
    (r : AttendanceApprovalRequest) : Bool :=
  r.status == ReqStatus.SUPERVISOR_APPROVED

/-- The error taxonomy of the external interface layer. -/
inductive ApiError
  | Unauthorized
  | InvalidTransition (msg : String)
  | Precondition (msg : String)
deriving DecidableEq

/-- Modelled from the spec: the HTTP/view layer that handles the first-tier
approval call `supervisorApprove(requestId, actorId, notes?)` is not among
the provided source files (only the model transition and the capability
check `can_user_review_as_supervisor` are). Per the spec, the operation
requires the actor to be the employee's unit supervisor and otherwise fails
with `Unauthorized` and no state change; an authorized actor performs the
model transition, whose wrong-state failure surfaces as
`InvalidTransition`. -/
def supervisorApproveApi (now : Nat) (r : AttendanceApprovalRequest)
    (actor : CustomUser) (notes : Option String) :
    Except ApiError AttendanceApprovalRequest :=
  if r.can_user_review_as_supervisor actor then
    match r.supervisor_approve now actor notes with
    | Except.ok r1 => Except.ok r1
    | Except.error msg => Except.error (ApiError.InvalidTransition msg)
  else
    Except.error ApiError.Unauthorized

/-- Modelled from the spec: the view-layer factory
`requestApproval(attendanceRecordId, employeeId, reason, document?)` is not
among the provided source files. Per the spec, creation requires the source
predicate `can_request_approval` (day status ABSENT and no pending request)
and, on success, creates the request in PENDING state and sets
`has_pending_approval_request = true` on the attendance record. -/
def requestApproval (att : Attendance) (employee : CustomUser)
    (reason : String) (document : Option String) :
    Except ApiError AttendanceApprovalRequest :=
  if att.can_request_approval then
    Except.ok {
      attendance := { att with has_pending_approval_request := true }
      employee := employee
      reason := reason
      supporting_documents := document
      status := ReqStatus.PENDING
      supervisor_reviewed_by := none
      supervisor_review_notes := none
      supervisor_reviewed_at := none
      hr_reviewed_by := none
      hr_review_notes := none
      hr_reviewed_at := none }
  else
    Except.error (ApiError.Precondition "cannot request approval")

/-! Concrete fixtures used for witnesses and counterexamples. -/

/-- A unit supervised by user 1. -/
def unitA : OrgUnit := { supervisor := some 1 }

/-- An ordinary ACTIVE employee of `unitA`. -/
def empA : CustomUser :=
  { id := 10, employee_status := EmployeeStatus.ACTIVE,
    unit := some unitA, approval_level := ApprovalLevel.STAFF }

/-- The supervisor of `unitA`. -/
def supA : CustomUser :=
  { id := 1, employee_status := EmployeeStatus.ACTIVE,
    unit := none, approval_level := ApprovalLevel.SUPERVISOR }

/-- An HR admin. -/
def hrA : CustomUser :=
  { id := 2, employee_status := EmployeeStatus.ACTIVE,
    unit := none, approval_level := ApprovalLevel.HR_ADMIN }

/-- A staff user unrelated to `unitA`. -/
def outsiderA : CustomUser :=
  { id := 3, employee_status := EmployeeStatus.ACTIVE,
    unit := none, approval_level := ApprovalLevel.STAFF }

/-- An environment with no settings row and no holidays. -/
def env0 : Env := { settingsList := [], holidays := [] }

/-- An ABSENT attendance record for `empA` on a Monday (day 7), with no
clock-in and a pending approval request flagged. -/
def att0 : Attendance :=
  { employee := empA, date := 7, clock_in_time := none,
    clock_out_time := none, employeeDayStatus := DayStatus.ABSENT,
    hours_worked := none, has_pending_approval_request := true }

/-- A PENDING approval request of `empA` against `att0`. -/
def req0 : AttendanceApprovalRequest :=
  { attendance := att0, employee := empA, reason := "medical emergency",
    supporting_documents := none, status := ReqStatus.PENDING,
    supervisor_reviewed_by := none, supervisor_review_notes := none,
    supervisor_reviewed_at := none, hr_reviewed_by := none,
    hr_review_notes := none, hr_reviewed_at := none }

/-- A copy of `req0` already approved by the supervisor. -/
def reqSA : AttendanceApprovalRequest :=
  { req0 with status := ReqStatus.SUPERVISOR_APPROVED }

/-- A copy of `req0` already rejected. -/
def reqR : AttendanceApprovalRequest :=
  { req0 with status := ReqStatus.REJECTED }

/-- An attendance record for `empA` on a Monday with clock-in 09:00 and
clock-out 17:00. -/
def att9 : Attendance :=
  { employee := empA, date := 7, clock_in_time := some (9 * 3600),
    clock_out_time := some (17 * 3600), employeeDayStatus := DayStatus.PRESENT,
    hours_worked := none, has_pending_approval_request := false }

/-- A SUSPENDED employee. -/
def empSuspended : CustomUser :=
  { id := 11, employee_status := EmployeeStatus.SUSPENDED,
    unit := some unitA, approval_level := ApprovalLevel.STAFF }

/-- An environment with no settings row and one active holiday on day 12
(a Saturday). -/
def envSat : Env :=
  { settingsList := [],
    holidays := [{ name := "Sat Holiday", date := 12, is_active := true }] }

/-- A copy of `att0` with clock-in 08:59. -/
def attEarly : Attendance :=
  { att0 with clock_in_time := some (8 * 3600 + 59 * 60) }

/-- A copy of `att0` with clock-in 09:01. -/
def attLate : Attendance :=
  { att0 with clock_in_time := some (9 * 3600 + 60) }

/-- A copy of `att0` with no pending request flagged, eligible for a new
approval request. -/
def attAbsent : Attendance :=
  { att0 with has_pending_approval_request := false }

/-! Shared helper lemmas about `Attendance.save`. -/

/-- The status persisted by `Attendance.save` is exactly the cascade over
the record's employee status, date and clock-in time; in particular it does
not depend on the `employeeDayStatus` value held before the save. -/
theorem save_status_eq_cascade (env : Env) (a : Attendance) :
    (Attendance.save env a).employeeDayStatus
      = deriveStatus env a.employee.employee_status a.date a.clock_in_time := by
  cases a with
  | mk e d ci co st hw fl => cases ci <;> cases co <;> rfl

/-- Persisting through `Attendance.save` leaves `has_pending_approval_request` unchanged. -/
theorem save_has_pending (env : Env) (a : Attendance) :
    (Attendance.save env a).has_pending_approval_request
      = a.has_pending_approval_request := rfl

/-- The hours persisted by `Attendance.save`: recomputed when both clock
times are present, otherwise left at the previously stored value. -/
theorem save_hours (env : Env) (a : Attendance) :
    (Attendance.save env a).hours_worked
      = match a.clock_in_time, a.clock_out_time with
        | some ci, some co => some (pyRound2 (((co : ℚ) - (ci : ℚ)) / 3600))
        | _, _ => a.hours_worked := rfl

/-! Claim theorems. -/

/-- C10: `recordAttendance` (persisting an attendance record through
`Attendance.save`) is idempotent: with the settings, holiday and employee
state unchanged, saving a second time with identical inputs leaves the
whole persisted record — in particular `employeeDayStatus` and
`hours_worked` — exactly as after the first save. -/
theorem recordAttendance_idempotent (env : Env) (a : Attendance) :
    Attendance.save env (Attendance.save env a) = Attendance.save env a := by
  cases a with
  | mk e d ci co st hw fl => cases ci <;> cases co <;> rfl

/-- C2: every write path persists the cascade. A plain `Attendance.save`
stores as `employeeDayStatus` exactly the priority cascade over the
record's current fields (its inputs are only the employee's status, the
date, the clock-in time, and the environment — not the status value held
before the save, so a pre-assigned status survives only if the cascade
independently produces it); and each approval transition that calls
`attendance.save()` — `hr_approve` (which first assigns `PRESENT`),
`supervisor_reject` and `hr_reject` — persists, on success, a linked
attendance record whose status is again exactly that cascade. -/
theorem persisted_status_is_cascade (env : Env) (a : Attendance) (now : Nat)
    (r : AttendanceApprovalRequest) (sup hr : CustomUser)
    (notes : String) (onotes : Option String) :
    ((Attendance.save env a).employeeDayStatus
        = deriveStatus env a.employee.employee_status a.date a.clock_in_time)
    ∧ (∀ r2, AttendanceApprovalRequest.hr_approve env now r hr onotes
          = Except.ok r2 →
        r2.attendance.employeeDayStatus
          = deriveStatus env r.attendance.employee.employee_status
              r.attendance.date r.attendance.clock_in_time)
    ∧ (∀ r2, AttendanceApprovalRequest.supervisor_reject env now r sup notes
          = Except.ok r2 →
        r2.attendance.employeeDayStatus
          = deriveStatus env r.attendance.employee.employee_status
              r.attendance.date r.attendance.clock_in_time)
    ∧ (∀ r2, AttendanceApprovalRequest.hr_reject env now r hr notes
          = Except.ok r2 →
        r2.attendance.employeeDayStatus
          = deriveStatus env r.attendance.employee.employee_status
              r.attendance.date r.attendance.clock_in_time) := by
  refine ⟨save_status_eq_cascade env a, ?_, ?_, ?_⟩ <;>
    · intro r2 h
      first
      | (unfold AttendanceApprovalRequest.hr_approve at h)
      | (unfold AttendanceApprovalRequest.supervisor_reject at h)
      | (unfold AttendanceApprovalRequest.hr_reject at h)
      split at h
      · exact absurd h (by simp)
      · injection h with h2
        subst h2
        exact save_status_eq_cascade env _

/-- Witness for C2: a concrete successful `hr_approve` (on a
supervisor-approved request over an ABSENT record) persists as day status
exactly the cascade value. -/
theorem persisted_status_is_cascade_witness :
    ∃ r2, AttendanceApprovalRequest.hr_approve env0 200 reqSA hrA none
        = Except.ok r2
      ∧ r2.attendance.employeeDayStatus
          = deriveStatus env0 reqSA.attendance.employee.employee_status
              reqSA.attendance.date reqSA.attendance.clock_in_time := by
  refine ⟨_, rfl, ?_⟩
  exact (persisted_status_is_cascade env0 att0 200 reqSA supA hrA "" none).2.1
    _ rfl

/-- C6: every transition invoked outside its required source state raises
before assigning any field (modelled as an error result, so the request's
status, its review fields and the linked attendance record all stand
unchanged): `supervisor_approve` and `supervisor_reject` require PENDING,
`hr_approve` and `hr_reject` require SUPERVISOR_APPROVED; in particular all
four fail from the terminal states REJECTED and HR_APPROVED, and
`hr_approve` fails after a supervisor rejection. -/
theorem wrong_source_state_fails (env : Env) (now : Nat)
    (r : AttendanceApprovalRequest) (sup hr : CustomUser)
    (notes : String) (onotes : Option String) :
    (r.status ≠ ReqStatus.PENDING →
      AttendanceApprovalRequest.supervisor_approve now r sup onotes
        = Except.error "Can only approve pending requests")
    ∧ (r.status ≠ ReqStatus.PENDING →
      AttendanceApprovalRequest.supervisor_reject env now r sup notes
        = Except.error "Can only reject pending requests")
    ∧ (r.status ≠ ReqStatus.SUPERVISOR_APPROVED →
      AttendanceApprovalRequest.hr_approve env now r hr onotes
        = Except.error "Can only approve supervisor-approved requests")
    ∧ (r.status ≠ ReqStatus.SUPERVISOR_APPROVED →
      AttendanceApprovalRequest.hr_reject env now r hr notes
        = Except.error "Can only reject supervisor-approved requests") := by
  refine ⟨fun h => ?_, fun h => ?_, fun h => ?_, fun h => ?_⟩
  · unfold AttendanceApprovalRequest.supervisor_approve
    rw [if_pos h]
  · unfold AttendanceApprovalRequest.supervisor_reject
    rw [if_pos h]
  · unfold AttendanceApprovalRequest.hr_approve
    rw [if_pos h]
  · unfold AttendanceApprovalRequest.hr_reject
    rw [if_pos h]

/-- Witness for C6: on a concrete request already REJECTED by the
supervisor, both a repeated supervisor approval and the subsequent
`hr_approve` fail. -/
theorem wrong_source_state_fails_witness :
    (AttendanceApprovalRequest.supervisor_approve 100 reqR supA none
      = Except.error "Can only approve pending requests")
    ∧ (AttendanceApprovalRequest.hr_approve env0 100 reqR hrA none
      = Except.error "Can only approve supervisor-approved requests") :=
  ⟨(wrong_source_state_fails env0 100 reqR supA hrA "" none).1 (by decide),
   (wrong_source_state_fails env0 100 reqR supA hrA "" none).2.2.1 (by decide)⟩

/-- C7: the persisted status is the cascade evaluated top-to-bottom with
first match winning, in the order SUSPENDED, ON_LEAVE, WEEKEND, HOLIDAY,
then clock-in evaluation (`deriveStatus` is literally that ordered
cascade); consequently a SUSPENDED employee's record is SUSPENDED whatever
the clock times, weekday or holidays, and an ACTIVE employee's record on a
Saturday or Sunday that is also an active holiday is WEEKEND, not
HOLIDAY. -/
theorem cascade_priority_order (env : Env) (a : Attendance) :
    ((Attendance.save env a).employeeDayStatus
        = deriveStatus env a.employee.employee_status a.date a.clock_in_time)
    ∧ (a.employee.employee_status = EmployeeStatus.SUSPENDED →
        (Attendance.save env a).employeeDayStatus = DayStatus.SUSPENDED)
    ∧ (a.employee.employee_status = EmployeeStatus.ACTIVE →
        weekday a.date ∈ ([5, 6] : List Nat) →
        (∃ h ∈ env.holidays, h.date = a.date ∧ h.is_active = true) →
        (Attendance.save env a).employeeDayStatus = DayStatus.WEEKEND) := by
  refine ⟨save_status_eq_cascade env a, fun h => ?_, fun h1 h2 _ => ?_⟩
  · rw [save_status_eq_cascade]
    simp [deriveStatus, h]
  · rw [save_status_eq_cascade]
    simp [deriveStatus, h1, h2]

/-- Witness for C7: a suspended employee clocked in early on a weekday is
still SUSPENDED, and an ACTIVE employee on a Saturday carrying an active
holiday is WEEKEND. -/
theorem cascade_priority_order_witness :
    ((Attendance.save envSat
        { att9 with employee := empSuspended }).employeeDayStatus
      = DayStatus.SUSPENDED)
    ∧ ((Attendance.save envSat
        { att9 with date := 12 }).employeeDayStatus = DayStatus.WEEKEND) :=
  ⟨(cascade_priority_order envSat { att9 with employee := empSuspended }).2.1
      rfl,
   (cascade_priority_order envSat { att9 with date := 12 }).2.2 rfl (by decide)
      ⟨{ name := "Sat Holiday", date := 12, is_active := true },
        by constructor <;> decide⟩⟩

/-- C8: for an ACTIVE employee on a non-weekend date with no active
holiday, the persisted status is ABSENT with no clock-in, PRESENT when the
clock-in is at or before the governing work-start deadline (whether or not
a clock-out is present — the record's clock-out plays no role in the
status), ABSENT when the clock-in is strictly later; and when no settings
row is active the governing deadline is the hardcoded 09:00. -/
theorem clock_in_evaluation (env : Env) (a : Attendance)
    (hact : a.employee.employee_status = EmployeeStatus.ACTIVE)
    (hwk : weekday a.date ∉ ([5, 6] : List Nat))
    (hhol : env.holidays.any (fun h => h.date == a.date && h.is_active)
      = false) :
    (a.clock_in_time = none →
      (Attendance.save env a).employeeDayStatus = DayStatus.ABSENT)
    ∧ (∀ ci, a.clock_in_time = some ci → ci ≤ workStartOf env →
        (Attendance.save env a).employeeDayStatus = DayStatus.PRESENT)
    ∧ (∀ ci, a.clock_in_time = some ci → workStartOf env < ci →
        (Attendance.save env a).employeeDayStatus = DayStatus.ABSENT)
    ∧ (AttendanceSettings.get_active_settings env.settingsList = none →
        workStartOf env = 9 * 3600) := by
  refine ⟨fun hci => ?_, fun ci hci hle => ?_, fun ci hci hgt => ?_,
    fun hs => ?_⟩
  · rw [save_status_eq_cascade, hci]
    simp [deriveStatus, hact, hwk, hhol]
  · rw [save_status_eq_cascade, hci]
    simp [deriveStatus, hact, hwk, hhol, hle]
  · rw [save_status_eq_cascade, hci]
    simp [deriveStatus, hact, hwk, hhol, not_le.mpr hgt]
  · simp [workStartOf, hs, defaultWorkStart]

/-- Witness for C8 with no active settings row (deadline 09:00): clock-in
08:59 gives PRESENT, clock-in 09:01 gives ABSENT, no clock-in gives
ABSENT. -/
theorem clock_in_evaluation_witness :
    ((Attendance.save env0 attEarly).employeeDayStatus = DayStatus.PRESENT)
    ∧ ((Attendance.save env0 attLate).employeeDayStatus = DayStatus.ABSENT)
    ∧ ((Attendance.save env0 att0).employeeDayStatus = DayStatus.ABSENT) :=
  ⟨(clock_in_evaluation env0 attEarly rfl (by decide) rfl).2.1 _ rfl
      (by decide),
   (clock_in_evaluation env0 attLate rfl (by decide) rfl).2.2.1 _ rfl
      (by decide),
   (clock_in_evaluation env0 att0 rfl (by decide) rfl).1 rfl⟩

/-- C3 (spec-modelled external operation): invoking `supervisorApprove` on
a PENDING request with an actor who is not the employee's unit supervisor
fails with `Unauthorized` before the model transition is reached, so
neither the request nor the linked attendance record is touched. -/
theorem supervisorApprove_unauthorized_fails (now : Nat)
    (r : AttendanceApprovalRequest) (actor : CustomUser)
    (notes : Option String)
    (hp : r.status = ReqStatus.PENDING)
    (hu : r.can_user_review_as_supervisor actor = false) :
    supervisorApproveApi now r actor notes
      = Except.error ApiError.Unauthorized := by
  simp [supervisorApproveApi, hu]

/-- Witness for C3: a staff outsider (id 3) is refused on `req0`, whose
unit supervisor is user 1. -/
theorem supervisorApprove_unauthorized_fails_witness :
    supervisorApproveApi 100 req0 outsiderA none
      = Except.error ApiError.Unauthorized :=
  supervisorApprove_unauthorized_fails 100 req0 outsiderA none rfl (by decide)

/-- C4: the pending-request flag's lifecycle. The (spec-modelled) creation
factory sets `has_pending_approval_request = true` on the linked record;
`supervisor_approve` leaves the flag exactly as it was (so it remains true
after first-tier approval); and each terminal transition —
`supervisor_reject`, `hr_approve`, `hr_reject` — persists the flag as
false. -/
theorem pending_flag_lifecycle (env : Env) (now : Nat) (att : Attendance)
    (employee sup hr : CustomUser) (reason : String) (doc : Option String)
    (r : AttendanceApprovalRequest) (notes : String)
    (onotes : Option String) :
    (∀ r1, requestApproval att employee reason doc = Except.ok r1 →
      r1.attendance.has_pending_approval_request = true)
    ∧ (∀ r1, AttendanceApprovalRequest.supervisor_approve now r sup onotes
          = Except.ok r1 →
      r1.attendance.has_pending_approval_request
        = r.attendance.has_pending_approval_request)
    ∧ (∀ r1, AttendanceApprovalRequest.supervisor_reject env now r sup notes
          = Except.ok r1 →
      r1.attendance.has_pending_approval_request = false)
    ∧ (∀ r1, AttendanceApprovalRequest.hr_approve env now r hr onotes
          = Except.ok r1 →
      r1.attendance.has_pending_approval_request = false)
    ∧ (∀ r1, AttendanceApprovalRequest.hr_reject env now r hr notes
          = Except.ok r1 →
      r1.attendance.has_pending_approval_request = false) := by
  refine ⟨?_, ?_, ?_, ?_, ?_⟩
  · intro r1 h
    unfold requestApproval at h
    split at h
    · injection h with h2
      subst h2
      rfl
    · exact absurd h (by simp)
  · intro r1 h
    unfold AttendanceApprovalRequest.supervisor_approve at h
    split at h
    · exact absurd h (by simp)
    · injection h with h2
      subst h2
      rfl
  · intro r1 h
    unfold AttendanceApprovalRequest.supervisor_reject at h
    split at h
    · exact absurd h (by simp)
    · injection h with h2
      subst h2
      rfl
  · intro r1 h
    unfold AttendanceApprovalRequest.hr_approve at h
    split at h
    · exact absurd h (by simp)
    · injection h with h2
      subst h2
      rfl
  · intro r1 h
    unfold AttendanceApprovalRequest.hr_reject at h
    split at h
    · exact absurd h (by simp)
    · injection h with h2
      subst h2
      rfl

/-- Witness for C4: creating a request against the eligible ABSENT record
`attAbsent` yields a request whose linked record has the flag set. -/
theorem pending_flag_lifecycle_witness :
    ∃ r1, requestApproval attAbsent empA "traffic" none = Except.ok r1
      ∧ r1.attendance.has_pending_approval_request = true := by
  refine ⟨_, rfl, ?_⟩
  exact (pending_flag_lifecycle env0 0 attAbsent empA supA hrA "traffic" none
    req0 "" none).1 _ rfl

/-- C5 counterexample: the claim that an empty notes argument makes a
rejection fail is false on the code — `supervisor_reject` performs no
content check on `notes`, so rejecting the concrete PENDING request `req0`
with the empty string succeeds, transitions it to REJECTED and records the
empty notes. -/
theorem empty_rejection_notes_accepted :
    ∃ r1, AttendanceApprovalRequest.supervisor_reject env0 100 req0 supA ""
        = Except.ok r1
      ∧ r1.status = ReqStatus.REJECTED
      ∧ r1.supervisor_review_notes = some "" :=
  ⟨_, rfl, rfl, rfl⟩

/-- C5 (amended): rejections require the notes argument only by call
signature (`supervisor_reject` and `hr_reject` take a mandatory `notes`
parameter, so an omitted argument is an error at the call site before any
state change), but the content is not validated: any string, the empty
string included, is accepted from the transition's source state and the
rejection proceeds, recording the given notes; the approval transitions
accept an absent notes argument. -/
theorem rejection_notes_not_validated (env : Env) (now : Nat)
    (rp rs : AttendanceApprovalRequest) (sup hr : CustomUser)
    (notes : String)
    (hp : rp.status = ReqStatus.PENDING)
    (hs : rs.status = ReqStatus.SUPERVISOR_APPROVED) :
    (∃ r1, AttendanceApprovalRequest.supervisor_reject env now rp sup notes
        = Except.ok r1
      ∧ r1.status = ReqStatus.REJECTED
      ∧ r1.supervisor_review_notes = some notes)
    ∧ (∃ r1, AttendanceApprovalRequest.hr_reject env now rs hr notes
        = Except.ok r1
      ∧ r1.status = ReqStatus.REJECTED
      ∧ r1.hr_review_notes = some notes)
    ∧ (∃ r1, AttendanceApprovalRequest.supervisor_approve now rp sup none
        = Except.ok r1)
    ∧ (∃ r1, AttendanceApprovalRequest.hr_approve env now rs hr none
        = Except.ok r1) := by
  refine ⟨?_, ?_, ?_, ?_⟩
  · unfold AttendanceApprovalRequest.supervisor_reject
    rw [if_neg (by simp [hp])]
    exact ⟨_, rfl, rfl, rfl⟩
  · unfold AttendanceApprovalRequest.hr_reject
    rw [if_neg (by simp [hs])]
    exact ⟨_, rfl, rfl, rfl⟩
  · unfold AttendanceApprovalRequest.supervisor_approve
    rw [if_neg (by simp [hp])]
    exact ⟨_, rfl⟩
  · unfold AttendanceApprovalRequest.hr_approve
    rw [if_neg (by simp [hs])]
    exact ⟨_, rfl⟩

/-- Witness for C5 (amended): the concrete PENDING request `req0` and the
supervisor-approved `reqSA` accept an empty rejection notes string, and
both approvals accept absent notes. -/
theorem rejection_notes_not_validated_witness :
    (∃ r1, AttendanceApprovalRequest.supervisor_reject env0 100 req0 supA ""
        = Except.ok r1
      ∧ r1.status = ReqStatus.REJECTED
      ∧ r1.supervisor_review_notes = some "")
    ∧ (∃ r1, AttendanceApprovalRequest.hr_reject env0 100 reqSA hrA ""
        = Except.ok r1
      ∧ r1.status = ReqStatus.REJECTED
      ∧ r1.hr_review_notes = some "")
    ∧ (∃ r1, AttendanceApprovalRequest.supervisor_approve 100 req0 supA none
        = Except.ok r1)
    ∧ (∃ r1, AttendanceApprovalRequest.hr_approve env0 100 reqSA hrA none
        = Except.ok r1) :=
  rejection_notes_not_validated env0 100 req0 reqSA supA hrA "" rfl rfl

/-- Evaluation helper: `roundHalfEven` is the identity on integer-valued
rationals. -/
theorem roundHalfEven_intCast (n : ℤ) : roundHalfEven ((n : ℚ)) = n := by
  simp [roundHalfEven, Int.floor_intCast]

/-- Evaluation helper: the 09:00-17:00 hours computation yields exactly
8.00. -/
theorem pyRound2_nine_to_five :
    pyRound2 ((((17 * 3600 : Nat) : ℚ) - ((9 * 3600 : Nat) : ℚ)) / 3600)
      = 8 := by
  have h : ((((17 * 3600 : Nat) : ℚ) - ((9 * 3600 : Nat) : ℚ)) / 3600)
      = ((8 : ℤ) : ℚ) := by
    norm_num
  unfold pyRound2
  rw [h]
  have h2 : ((8 : ℤ) : ℚ) * 100 = ((800 : ℤ) : ℚ) := by norm_num
  rw [h2, roundHalfEven_intCast]
  norm_num

/-- C9 counterexample: `Attendance.save` has no else-branch resetting
`hours_worked`, so after saving the concrete record `att9` (09:00 - 17:00,
hours 8.00) and then saving again with the clock-out removed, the persisted
`hours_worked` is still 8.00 — not null as the claim requires. -/
theorem stale_hours_after_clock_out_removed :
    ((Attendance.save env0 att9).hours_worked = some 8)
    ∧ ((Attendance.save env0
          { Attendance.save env0 att9 with
            clock_out_time := none }).hours_worked = some 8)
    ∧ ((Attendance.save env0
          { Attendance.save env0 att9 with
            clock_out_time := none }).hours_worked ≠ none) := by
  have h1 : (Attendance.save env0 att9).hours_worked
      = some (pyRound2 ((((17 * 3600 : Nat) : ℚ) - ((9 * 3600 : Nat) : ℚ))
          / 3600)) := rfl
  have h2 : (Attendance.save env0
      { Attendance.save env0 att9 with
        clock_out_time := none }).hours_worked
      = (Attendance.save env0 att9).hours_worked := rfl
  rw [pyRound2_nine_to_five] at h1
  refine ⟨h1, ?_, ?_⟩
  · rw [h2, h1]
  · rw [h2, h1]
    simp

/-- C9 (amended): when both clock times are present, the persisted
`hours_worked` is the clock difference in seconds divided by 3600, rounded
to two decimals (09:00 to 17:00 gives exactly 8.00); when both are not
present, `Attendance.save` leaves `hours_worked` at its previously stored
value — so it is null only if never computed, and an update that removes a
previously present clock-out keeps the stale computed value rather than
resetting it to null. -/
theorem hours_worked_derivation (env : Env) (a : Attendance) :
    (∀ ci co, a.clock_in_time = some ci → a.clock_out_time = some co →
      (Attendance.save env a).hours_worked
        = some (pyRound2 (((co : ℚ) - (ci : ℚ)) / 3600)))
    ∧ ((a.clock_in_time = none ∨ a.clock_out_time = none) →
      (Attendance.save env a).hours_worked = a.hours_worked)
    ∧ pyRound2 ((((17 * 3600 : Nat) : ℚ) - ((9 * 3600 : Nat) : ℚ)) / 3600)
        = 8 := by
  refine ⟨fun ci co hci hco => ?_, fun h => ?_, pyRound2_nine_to_five⟩
  · rw [save_hours env a, hci, hco]
  · rcases h with h | h
    · rw [save_hours env a, h]
    · rw [save_hours env a, h]
      cases hci2 : a.clock_in_time <;> rfl

/-- Witness for C9 (amended): applying the formula clause to the concrete
record `att9` (clock-in 09:00, clock-out 17:00). -/
theorem hours_worked_derivation_witness :
    (Attendance.save env0 att9).hours_worked
      = some (pyRound2 ((((17 * 3600 : Nat) : ℚ) - ((9 * 3600 : Nat) : ℚ))
          / 3600)) :=
  (hours_worked_derivation env0 att9).1 (9 * 3600) (17 * 3600) rfl rfl

/-- C1: evaluation of the full approval chain at a failing input. On the
concrete PENDING request `req0` over the ABSENT record `att0` (ACTIVE
employee, Monday, no clock-in, no holiday, no active settings),
`supervisor_approve` followed by `hr_approve` ends with the request
HR_APPROVED and the pending flag cleared — but the linked record's
persisted `employeeDayStatus` is ABSENT, not PRESENT: `hr_approve` assigns
PRESENT and then calls `attendance.save()`, whose cascade re-derives
ABSENT over the assignment, contradicting the method's own docstring
("MARKS ATTENDANCE AS PRESENT", "the ONLY method that can change ABSENT to
PRESENT"). -/
theorem hr_approve_present_overwritten_by_save :
    ∃ r1 r2,
      AttendanceApprovalRequest.supervisor_approve 100 req0 supA none
        = Except.ok r1
      ∧ AttendanceApprovalRequest.hr_approve env0 200 r1 hrA none
        = Except.ok r2
      ∧ r2.status = ReqStatus.HR_APPROVED
      ∧ r2.attendance.has_pending_approval_request = false
      ∧ r2.attendance.employeeDayStatus = DayStatus.ABSENT
      ∧ r2.attendance.employeeDayStatus ≠ DayStatus.PRESENT :=
  ⟨_, _, rfl, rfl, rfl, rfl, rfl, by decide⟩
